import Mathlib

set_option linter.unusedVariables false

/-!
Shallow embedding of the VISTA backend agent core (src/server.js, the
"Ultimate Version" variant that contains the agent router, the tool
executor and the Replicate polling endpoints).

JavaScript values relevant to the embedded code are strings and numbers;
truthiness follows JS rules (empty string and 0 are falsy).  External HTTP
collaborators (Unsplash, Pexels, Replicate, Open-Meteo, the OpenAI planner)
are modelled as an environment of response-valued functions, and the
impure clock used by formatDateOffset is passed in as a calendar date.
-/

/-- A JS value as used by the agent core: a string or a number. -/
inductive JVal where
  | vstr (s : String)
  | vnum (n : Int)
deriving DecidableEq

/-- JS truthiness of a value: empty string and 0 are falsy. -/
def jvalTruthy : JVal → Bool
  | .vstr s => s ≠ ""
  | .vnum n => n ≠ 0

/-- JS truthiness of a possibly-undefined value. -/
def optTruthy : Option JVal → Bool
  | none => false
  | some v => jvalTruthy v

/-- String coercion of a JS value (as used in template literals). -/
def jvalStr : JVal → String
  | .vstr s => s
  | .vnum n => toString n

/-- JS `a || b` for strings: `b` when `a` is falsy (empty). -/
def jsOrS (a b : String) : String := if a = "" then b else a

/-- JS truthiness of a possibly-undefined string (e.g. `data.error`). -/
def errTruthy : Option String → Bool
  | none => false
  | some s => s ≠ ""

/-! ## Text utilities used by the fallback resolver (inferToolFromText) -/

/-- Whitespace characters recognised by the regex class `\s` and by trim. -/
def isWsChar (c : Char) : Bool := c == ' ' || c == '\t' || c == '\n' || c == '\r'

/-- Model of JS `toLowerCase` on the ASCII range (CJK characters are fixed). -/
def lowerL (l : List Char) : List Char := l.map Char.toLower

/-- Model of JS `trim`: drop whitespace from both ends. -/
def trimL (l : List Char) : List Char :=
  ((l.dropWhile isWsChar).reverse.dropWhile isWsChar).reverse

/-- Substring test: `regex.test` for a literal alternative. -/
def containsSub (pat : List Char) : List Char → Bool
  | [] => pat.isEmpty
  | c :: rest => pat.isPrefixOf (c :: rest) || containsSub pat rest

/-- Substring test against any alternative of a regex alternation. -/
def containsAnyL (pats : List (List Char)) (l : List Char) : Bool :=
  pats.any (fun p => containsSub p l)

/-- Alternatives of `/yesterday|last week|last 7 days|过去|昨天|前天|上周/`. -/
def histKws : List (List Char) :=
  ["yesterday".toList, "last week".toList, "last 7 days".toList,
   "过去".toList, "昨天".toList, "前天".toList, "上周".toList]

/-- The historical-weather trigger of inferToolFromText. -/
def wantsHistoryL (t : List Char) : Bool := containsAnyL histKws t

/-- Alternatives of `/show me|search|find|image|picture|photo|搜|搜索|找|图|图片|照片/`. -/
def searchKws : List (List Char) :=
  ["show me".toList, "search".toList, "find".toList, "image".toList,
   "picture".toList, "photo".toList, "搜".toList, "搜索".toList,
   "找".toList, "图".toList, "图片".toList, "照片".toList]

/-- The search trigger of inferToolFromText. -/
def wantsSearchL (t : List Char) : Bool := containsAnyL searchKws t

/-- Alternatives of `/weather|天气/`, the weather-keyword exclusion. -/
def weatherKws : List (List Char) := ["weather".toList, "天气".toList]

/-- Alternatives of `/generate|create|make|draw|生成|画|创作/`. -/
def genKws : List (List Char) :=
  ["generate".toList, "create".toList, "make".toList, "draw".toList,
   "生成".toList, "画".toList, "创作".toList]

/-- The generation trigger of inferToolFromText. -/
def wantsGenerateL (t : List Char) : Bool := containsAnyL genKws t

/-- Alternatives stripped from a search message, in the order they appear in
the source regex `/show me|search|find|images of|image of|pictures of|picture of|photos of|photo of/gi`. -/
def searchStripPats : List (List Char) :=
  ["show me".toList, "search".toList, "find".toList, "images of".toList,
   "image of".toList, "pictures of".toList, "picture of".toList,
   "photos of".toList, "photo of".toList]

/-- Alternatives of the second strip regex `/搜|搜索|找|图片|照片|图/g` in source order. -/
def zhStripPats : List (List Char) :=
  ["搜".toList, "搜索".toList, "找".toList, "图片".toList, "照片".toList, "图".toList]

/-- First alternative of `pats` matching a prefix of `l`; returns the rest
after the match (regex alternation tries alternatives left to right). -/
def dropMatch (pats : List (List Char)) (l : List Char) : Option (List Char) :=
  match pats with
  | [] => none
  | p :: ps => if p.isPrefixOf l then some (l.drop p.length) else dropMatch ps l

/-- Global regex replace with the empty string: scan left to right, removing
each leftmost match and continuing after it.  The fuel argument is an upper
bound on the number of steps; `stripAll` supplies the input length, which is
exact because every step either consumes a (nonempty) match or one character. -/
def stripGo (pats : List (List Char)) : Nat → List Char → List Char
  | 0, l => l
  | _ + 1, [] => []
  | fuel + 1, c :: rest =>
    match dropMatch pats (c :: rest) with
    | some rest2 => stripGo pats fuel rest2
    | none => c :: stripGo pats fuel rest

/-- Model of `text.replace(/p1|p2|.../g, "")`. -/
def stripAll (pats : List (List Char)) (l : List Char) : List Char :=
  stripGo pats l.length l

/-- Word characters of the regex class `\w` (used for `\b` boundaries). -/
def isWordC (c : Char) : Bool := c.isDigit || c.isLower || c.isUpper || c == '_'

/-- Match `\d{4}-\d{2}-\d{2}\b` at the current position. -/
def isoHere : List Char → Option (List Char)
  | a :: b :: c :: d :: '-' :: e :: f :: '-' :: g :: h :: rest =>
    if a.isDigit && b.isDigit && c.isDigit && d.isDigit && e.isDigit && f.isDigit
        && g.isDigit && h.isDigit
        && (match rest with | [] => true | x :: _ => !(isWordC x)) then
      some [a, b, c, d, '-', e, f, '-', g, h]
    else none
  | _ => none

/-- Leftmost match scan for `/\b(\d{4}-\d{2}-\d{2})\b/`; the boolean carries
whether the previous character was a word character (for `\b`). -/
def parseISOGo : Bool → List Char → Option (List Char)
  | _, [] => none
  | pw, c :: rest =>
    if pw then parseISOGo (isWordC c) rest
    else
      match isoHere (c :: rest) with
      | some m => some m
      | none => parseISOGo (isWordC c) rest

/-- Model of parseISODate: the matched `YYYY-MM-DD` text, or "" when absent. -/
def parseISODate (t : List Char) : String :=
  match parseISOGo false t with
  | some m => String.mk m
  | none => ""

/-- The regex class `[a-z\s]` (the input is already lowercased). -/
def azSpace (c : Char) : Bool := c.isLower || isWsChar c

/-- Capture of `/\bin\s+([a-z\s]+)$/` given the text after the literal "in":
the rest must be whitespace-led and consist of `[a-z\s]` only; the greedy
`\s+` leaves the capture after the maximal whitespace run, backtracking to a
single whitespace character when nothing follows it. -/
def inCapture : List Char → Option (List Char)
  | [] => none
  | c :: rest =>
    if !isWsChar c then none
    else if !(c :: rest).all azSpace then none
    else
      let w := (c :: rest).takeWhile isWsChar
      if w.length < (c :: rest).length then some ((c :: rest).drop w.length)
      else if 2 ≤ (c :: rest).length then some [' ']
      else none

/-- Leftmost match scan for `/\bin\s+([a-z\s]+)$/i` on lowercased text. -/
def inScan : Bool → List Char → Option (List Char)
  | pw, 'i' :: 'n' :: rest =>
    if pw then inScan true ('n' :: rest)
    else
      match inCapture rest with
      | some cap => some cap
      | none => inScan true ('n' :: rest)
  | _, c :: rest => inScan (isWordC c) rest
  | _, [] => none

/-- Greedy capture for `/([a-z\s]+)\s+weather/` at one start position: try
capture lengths from the maximal `[a-z\s]` run downwards, requiring at least
one whitespace character and then the literal "weather". -/
def weatherTryK : Nat → List Char → Option (List Char)
  | 0, _ => none
  | k + 1, s =>
    let cap := s.take (k + 1)
    let after := s.drop (k + 1)
    let w := after.takeWhile isWsChar
    if cap.all azSpace && !w.isEmpty && ("weather".toList).isPrefixOf (after.drop w.length)
    then some cap
    else weatherTryK k s

/-- Greedy capture for `/([a-z\s]+)\s+weather/` at one position. -/
def weatherCapAt (s : List Char) : Option (List Char) :=
  weatherTryK (s.takeWhile azSpace).length s

/-- Leftmost match scan for `/([a-z\s]+)\s+weather/i` on lowercased text. -/
def weatherScan : List Char → Option (List Char)
  | [] => none
  | c :: rest =>
    match weatherCapAt (c :: rest) with
    | some cap => some cap
    | none => weatherScan rest

/-- The regex class `[一-龥A-Za-z\s]`. -/
def zhClass (c : Char) : Bool :=
  (0x4e00 ≤ c.toNat && c.toNat ≤ 0x9fa5) || c.isLower || c.isUpper || isWsChar c

/-- Greedy capture for `/([一-龥A-Za-z\s]+)天气/` at one position. -/
def zhTryK : Nat → List Char → Option (List Char)
  | 0, _ => none
  | k + 1, s =>
    let cap := s.take (k + 1)
    let after := s.drop (k + 1)
    if cap.all zhClass && ("天气".toList).isPrefixOf after then some cap
    else zhTryK k s

/-- Greedy capture for the CJK weather pattern at one position. -/
def zhCapAt (s : List Char) : Option (List Char) :=
  zhTryK (s.takeWhile zhClass).length s

/-- Leftmost match scan for `/([一-龥A-Za-z\s]+)天气/`. -/
def zhScan : List Char → Option (List Char)
  | [] => none
  | c :: rest =>
    match zhCapAt (c :: rest) with
    | some cap => some cap
    | none => zhScan rest

/-- Model of extractCity: try the "in CITY" pattern, then "CITY weather",
then "CITY天气"; each capture is nonempty, so the source returns its trim. -/
def extractCity (t : List Char) : List Char :=
  match inScan false t with
  | some cap => trimL cap
  | none =>
    match weatherScan t with
    | some cap => trimL cap
    | none =>
      match zhScan t with
      | some cap => trimL cap
      | none => []

/-! ## Calendar dates (model of the JS Date arithmetic in formatDateOffset) -/

/-- A calendar date, standing for the local date held by a JS Date. -/
structure CalDate where
  year : Nat
  month : Nat
  day : Nat
deriving DecidableEq

/-- Gregorian leap-year rule (as implemented by JS Date rollover). -/
def isLeapYear (y : Nat) : Bool := (y % 4 == 0 && y % 100 != 0) || y % 400 == 0

/-- Number of days of a month (1-12). -/
def daysInMonth (y m : Nat) : Nat :=
  if m == 2 then (if isLeapYear y then 29 else 28)
  else if m == 4 || m == 6 || m == 9 || m == 11 then 30
  else 31

/-- The previous calendar day, with month and year rollover, the behaviour of
`d.setDate(d.getDate() - 1)`. -/
def prevDay (t : CalDate) : CalDate :=
  if 1 < t.day then ⟨t.year, t.month, t.day - 1⟩
  else if 1 < t.month then ⟨t.year, t.month - 1, daysInMonth t.year (t.month - 1)⟩
  else ⟨t.year - 1, 12, 31⟩

/-- Going back a number of days. -/
def subDays : CalDate → Nat → CalDate
  | t, 0 => t
  | t, n + 1 => subDays (prevDay t) n

/-- Model of `String(n).padStart(2, "0")` for the month and day fields. -/
def pad2 (n : Nat) : String := if n < 10 then "0" ++ toString n else toString n

/-- The `YYYY-MM-DD` rendering produced by formatDateOffset. -/
def fmtDate (t : CalDate) : String :=
  toString t.year ++ "-" ++ pad2 t.month ++ "-" ++ pad2 t.day

/-- Model of formatDateOffset: the source only ever calls it with the
negative offsets -1, -2 and -7 relative to the ambient clock, passed here as
`today`. -/
def formatDateOffset (today : CalDate) (days : Int) : String :=
  fmtDate (subDays today (-days).toNat)

/-! ## The fallback resolver inferToolFromText -/

/-- The caller-supplied state fields read by the resolver. -/
structure StateObj where
  preferred_ratio : Option JVal := none
  ratio : Option JVal := none
  ai_ratio : Option JVal := none

/-- A JS object of tool arguments (string-keyed mapping). -/
abbrev ArgsMap := List (String × JVal)

/-- Property read `args[k]` on an argument object. -/
def getArg (m : ArgsMap) (k : String) : Option JVal :=
  match m.find? (fun p => p.1 == k) with
  | some p => some p.2
  | none => none

/-- The resolver result: a clarifying reply, or tool invocations. -/
inductive Inferred where
  | replyMsg (s : String)
  | toolsList (l : List (String × ArgsMap))
deriving DecidableEq

/-- JS `a || b || dflt` over two optional state fields. -/
def stateRatio (a b : Option JVal) (dflt : JVal) : JVal :=
  if optTruthy a then a.getD dflt else if optTruthy b then b.getD dflt else dflt

/-- Model of inferToolFromText (src/server.js lines 366-425): deterministic
text heuristics applied when the planner proposed no tool call.  The ambient
clock of formatDateOffset is passed as `today`. -/
def inferToolFromText (today : CalDate) (message : String) (state : StateObj) :
    Option Inferred :=
  let text := trimL (lowerL message.toList)
  if text.isEmpty then none
  else if wantsHistoryL text then
    let city := extractCity text
    let date :=
      jsOrS (jsOrS (jsOrS (parseISODate text)
        (if containsSub ("yesterday".toList) text || containsSub ("昨天".toList) text
         then formatDateOffset today (-1) else ""))
        (if containsSub ("前天".toList) text then formatDateOffset today (-2) else ""))
        (if containsSub ("last week".toList) text || containsSub ("上周".toList) text
         then formatDateOffset today (-7) else "")
    if city.isEmpty then some (.replyMsg "Which city?")
    else if date = "" then some (.replyMsg "Which date should I check?")
    else some (.toolsList [("get_weather_history",
      [("city", .vstr (String.mk city)), ("date", .vstr date)])])
  else if wantsSearchL text && !(containsAnyL weatherKws text) then
    let query := trimL (stripAll zhStripPats (stripAll searchStripPats text))
    if query.isEmpty then some (.replyMsg "What should I search for?")
    else some (.toolsList [("search_library",
      [("query", .vstr (String.mk query)),
       ("ratio", stateRatio state.preferred_ratio state.ratio (.vstr "1:1"))])])
  else if wantsGenerateL text then
    let prompt := trimL (stripAll genKws text)
    if prompt.isEmpty then some (.replyMsg "What should I generate?")
    else some (.toolsList [("generate_ai",
      [("prompt", .vstr (String.mk prompt)),
       ("aspect_ratio", stateRatio state.preferred_ratio state.ai_ratio (.vstr "1:1"))])])
  else none

/-! ## Tool calls and the Tool Executor (executeToolCall) -/

/-- The raw `arguments` payload of a tool call: a JSON string or an object. -/
inductive RawArgs where
  | str (s : String)
  | obj (m : ArgsMap)
deriving DecidableEq

/-- JS truthiness of a raw arguments value (objects are always truthy). -/
def rawTruthy : RawArgs → Bool
  | .str s => s ≠ ""
  | .obj _ => true

/-- JS `a || b` over a possibly-undefined raw arguments value. -/
def orRaw (a : Option RawArgs) (b : RawArgs) : RawArgs :=
  match a with
  | some r => if rawTruthy r then r else b
  | none => b

/-- The nested `function` object of an OpenAI function_call item. -/
structure FnObj where
  fname : Option String := none
  farguments : Option RawArgs := none
deriving DecidableEq

/-- A tool call record as received by executeToolCall: its name and
arguments may live in several alternative fields. -/
structure ToolCall where
  name : Option String := none
  fn : Option FnObj := none
  tool_name : Option String := none
  arguments : Option RawArgs := none
  arguments_json : Option RawArgs := none
  cid : Option String := none
  call_id : Option String := none
deriving DecidableEq

/-- A planner-path tool call with plain name and object arguments. -/
def mkCall (n : String) (m : ArgsMap) : ToolCall :=
  { name := some n, arguments := some (.obj m) }

/-- Name resolution `toolCall.name || toolCall.function?.name || toolCall.tool_name`. -/
def resolveName (c : ToolCall) : String :=
  jsOrS (c.name.getD "")
    (jsOrS ((c.fn.bind FnObj.fname).getD "") (c.tool_name.getD ""))

/-- Raw argument resolution
`toolCall.arguments || toolCall.function?.arguments || toolCall.arguments_json || "\x7b\x7d"`. -/
def resolveRaw (c : ToolCall) : RawArgs :=
  orRaw c.arguments (orRaw (c.fn.bind FnObj.farguments)
    (orRaw c.arguments_json (.str "\x7b\x7d")))

/-- Response of the internal Unsplash/Pexels search proxies as seen by the
executor: HTTP ok flag, optional error field, optional images array. -/
structure SearchResp where
  ok : Bool
  error : Option String := none
  images : Option (List String) := none

/-- Response of the internal /api/replicate generation proxy. -/
structure GenResp where
  ok : Bool
  error : Option String := none
  images : Option (List String) := none

/-- Response of the internal /api/refine proxy. -/
structure RefResp where
  ok : Bool
  error : Option String := none
  image : Option String := none

/-- A geocoding result entry. -/
structure GeoPlace where
  latitude : Int
  longitude : Int
  name : String
  country : Option String := none

/-- Response of the Open-Meteo geocoding call. -/
structure GeoResp where
  ok : Bool
  results : Option (List GeoPlace) := none

/-- The daily aggregates of the Open-Meteo archive response; each field is a
possibly-missing array of possibly-null numbers. -/
structure DailyAgg where
  temperature_2m_max : Option (List (Option Int)) := none
  temperature_2m_min : Option (List (Option Int)) := none
  precipitation_sum : Option (List (Option Int)) := none
  windspeed_10m_max : Option (List (Option Int)) := none

/-- Response of the Open-Meteo archive call. -/
structure ArchResp where
  ok : Bool
  daily : Option DailyAgg := none

/-- An output item of an OpenAI responses call, as consumed by
extractOutputText and extractToolCalls. -/
inductive OutPart where
  | textPart (s : String)
  | callPart (c : ToolCall)
  | otherPart

/-- A top-level output item of an OpenAI responses call. -/
inductive OutItem where
  | outputText (s : String)
  | toolCallItem (c : ToolCall)
  | message (parts : List OutPart)
  | otherItem

/-- A planner (OpenAI responses) result. -/
structure PlannerResp where
  output_text : Option String := none
  output : List OutItem := []
  rid : Option String := none

/-- The environment of external collaborators: JSON parsing, the provider
adapters and the two planner calls of one agent turn. -/
structure Env where
  parseJson : String → Option ArgsMap
  unsplashApi : String → String → SearchResp
  pexelsApi : String → String → SearchResp
  replicateApi : String → JVal → String → GenResp
  refineApi : String → String → RefResp
  geocodeApi : String → GeoResp
  archiveApi : Int → Int → String → ArchResp
  plannerFirst : Except String PlannerResp
  plannerSecond : Except String PlannerResp

/-- Argument resolution: a JSON string is parsed, with parse failure giving
the empty object; an object is used as is. -/
def resolveArgs (env : Env) : RawArgs → ArgsMap
  | .str s => (env.parseJson s).getD []
  | .obj m => m

/-- An outbound adapter call performed by the executor. -/
inductive AdapterEv where
  | unsplashSearch (q ratio : String)
  | pexelsSearch (q ratio : String)
  | replicateGen (prompt : String) (count : JVal) (aspect : String)
  | refineCall (prompt input : String)
  | geocodeCall (city : String)
  | archiveCall (lat lon : Int) (day : String)
deriving DecidableEq

/-- The value of a successful tool execution. -/
inductive ToolValue where
  | searchRes (images : List String) (source : String)
  | genRes (images : List String)
  | refineRes (image : String)
  | viewRes (view : JVal)
  | okRes
  | weatherRes (city country date : String) (tmax tmin prec wind : Option Int)
deriving DecidableEq

/-- Decidable equality for Except outcomes. -/
instance exceptDecEq {ε α : Type} [DecidableEq ε] [DecidableEq α] :
    DecidableEq (Except ε α) := fun a b =>
  match a, b with
  | .ok x, .ok y =>
    if h : x = y then .isTrue (by rw [h]) else .isFalse (fun he => by cases he; exact h rfl)
  | .error x, .error y =>
    if h : x = y then .isTrue (by rw [h]) else .isFalse (fun he => by cases he; exact h rfl)
  | .ok _, .error _ => .isFalse (fun he => by cases he)
  | .error _, .ok _ => .isFalse (fun he => by cases he)

/-- Executor outcome: a returned value or a thrown error message, together
with the outbound adapter calls that were made. -/
structure ExecOut where
  res : Except String ToolValue
  calls : List AdapterEv
deriving DecidableEq

/-- First element of a daily-aggregate array, the JS
`daily.f ? daily.f[0] : null`. -/
def firstVal : Option (List (Option Int)) → Option Int
  | none => none
  | some l => (l.head?).getD none

/-- Dispatch of executeToolCall on the resolved name and arguments
(src/server.js lines 450-582). -/
def dispatchTool (env : Env) (name : String) (args : ArgsMap) : ExecOut :=
  match name with
  | "search_library" =>
    let query := getArg args "query"
    if !optTruthy query then ⟨.error "Missing query", []⟩
    else
      let q := jvalStr (query.getD (.vstr ""))
      let source := getArg args "source"
      let selectedSource : String :=
        if source = some (.vstr "pexels") ∨ source = some (.vstr "unsplash")
        then jvalStr (source.getD (.vstr "")) else "unsplash"
      let ratioStr :=
        if optTruthy (getArg args "ratio") then jvalStr ((getArg args "ratio").getD (.vstr ""))
        else "1:1"
      if selectedSource = "unsplash" then
        let resp := env.unsplashApi q ratioStr
        if !resp.ok || errTruthy resp.error then
          ⟨.error (jsOrS (resp.error.getD "") "Unsplash failed"), [.unsplashSearch q ratioStr]⟩
        else ⟨.ok (.searchRes (resp.images.getD []) selectedSource), [.unsplashSearch q ratioStr]⟩
      else if selectedSource = "pexels" then
        let resp := env.pexelsApi q ratioStr
        if !resp.ok || errTruthy resp.error then
          ⟨.error (jsOrS (resp.error.getD "") "Pexels failed"), [.pexelsSearch q ratioStr]⟩
        else ⟨.ok (.searchRes (resp.images.getD []) selectedSource), [.pexelsSearch q ratioStr]⟩
      else ⟨.error "Unsupported source", []⟩
  | "generate_ai" =>
    let prompt := getArg args "prompt"
    if !optTruthy prompt then ⟨.error "Missing prompt", []⟩
    else
      let p := jvalStr (prompt.getD (.vstr ""))
      let countV := if optTruthy (getArg args "count") then (getArg args "count").getD (.vnum 1) else .vnum 1
      let aspect :=
        if optTruthy (getArg args "aspect_ratio") then jvalStr ((getArg args "aspect_ratio").getD (.vstr ""))
        else "1:1"
      let resp := env.replicateApi p countV aspect
      if !resp.ok || errTruthy resp.error then
        ⟨.error (jsOrS (resp.error.getD "") "Flux failed"), [.replicateGen p countV aspect]⟩
      else ⟨.ok (.genRes (resp.images.getD [])), [.replicateGen p countV aspect]⟩
  | "refine_image" =>
    let prompt := getArg args "prompt"
    let input_image := getArg args "input_image"
    if !optTruthy prompt || !optTruthy input_image then
      ⟨.error "Missing prompt/input_image", []⟩
    else
      let p := jvalStr (prompt.getD (.vstr ""))
      let img := jvalStr (input_image.getD (.vstr ""))
      let resp := env.refineApi p img
      if !resp.ok || errTruthy resp.error then
        ⟨.error (jsOrS (resp.error.getD "") "Refine failed"), [.refineCall p img]⟩
      else ⟨.ok (.refineRes (resp.image.getD "")), [.refineCall p img]⟩
  | "set_view" =>
    let view := getArg args "view"
    if !optTruthy view then ⟨.error "Missing view", []⟩
    else ⟨.ok (.viewRes (view.getD (.vstr ""))), []⟩
  | "refresh_weather" => ⟨.ok .okRes, []⟩
  | "get_weather_history" =>
    let city := getArg args "city"
    let date := getArg args "date"
    if !optTruthy city || !optTruthy date then ⟨.error "Missing city/date", []⟩
    else
      let cityS := jvalStr (city.getD (.vstr ""))
      let geo := env.geocodeApi cityS
      if !geo.ok then ⟨.error "City not found", [.geocodeCall cityS]⟩
      else
        match geo.results with
        | some (place :: _) =>
          let day := (jvalStr (date.getD (.vstr ""))).take 10
          let arch := env.archiveApi place.latitude place.longitude day
          if !arch.ok then
            ⟨.error "Weather history failed",
             [.geocodeCall cityS, .archiveCall place.latitude place.longitude day]⟩
          else
            match arch.daily with
            | some d =>
              ⟨.ok (.weatherRes place.name (place.country.getD "") day
                 (firstVal d.temperature_2m_max) (firstVal d.temperature_2m_min)
                 (firstVal d.precipitation_sum) (firstVal d.windspeed_10m_max)),
               [.geocodeCall cityS, .archiveCall place.latitude place.longitude day]⟩
            | none =>
              ⟨.error "Weather history failed",
               [.geocodeCall cityS, .archiveCall place.latitude place.longitude day]⟩
        | _ => ⟨.error "City not found", [.geocodeCall cityS]⟩
  | _ => ⟨.error "Unknown tool", []⟩

/-- Model of executeToolCall (src/server.js lines 427-583): resolve the name
and arguments, then dispatch. -/
def executeToolCall (env : Env) (c : ToolCall) : ExecOut :=
  dispatchTool env (resolveName c) (resolveArgs env (resolveRaw c))

/-! ## Planner output extraction and the Conversation Orchestrator (/api/agent) -/

/-- Text contributed by one part of a message output item. -/
def partText : OutPart → String
  | .textPart s => s
  | _ => ""

/-- Text contributed by one top-level output item. -/
def itemText : OutItem → String
  | .outputText s => s
  | .message parts => String.join (parts.map partText)
  | _ => ""

/-- Model of extractOutputText: prefer a nonblank `output_text` field, else
concatenate the text parts of the output array. -/
def extractOutputText (r : PlannerResp) : String :=
  match r.output_text with
  | some s => if !(trimL s.toList).isEmpty then s else String.join (r.output.map itemText)
  | none => String.join (r.output.map itemText)

/-- Tool calls contributed by one part of a message output item. -/
def partCalls : OutPart → List ToolCall
  | .callPart c => [c]
  | _ => []

/-- Tool calls contributed by one top-level output item. -/
def itemCalls : OutItem → List ToolCall
  | .toolCallItem c => [c]
  | .message parts => (parts.map partCalls).flatten
  | _ => []

/-- Model of extractToolCalls: collect tool_call/function_call items, both
top level and nested inside message items, in order. -/
def extractToolCalls (r : PlannerResp) : List ToolCall :=
  (r.output.map itemCalls).flatten

/-- An outbound interaction of one turn (planner call, tool execution, or an
adapter call made inside a tool execution). -/
inductive TurnEv where
  | plannerCall
  | toolExec (name : String)
  | adapterCall (a : AdapterEv)
deriving DecidableEq

/-- A ToolResult record of the /api/agent response payload. -/
structure ToolResultRec where
  name : String
  args : ArgsMap
  result : ToolValue
deriving DecidableEq

/-- The outcome of one /api/agent turn: HTTP status, tools array, reply,
error payload, and the trace of outbound interactions. -/
structure AgentOut where
  status : Nat
  tools : List ToolResultRec
  reply : String
  errMsg : Option String
  trace : List TurnEv
deriving DecidableEq

/-- Name stored in a ToolResult record:
`call.name || call.function?.name || ""`. -/
def recCallName (c : ToolCall) : String :=
  jsOrS (c.name.getD "") (jsOrS ((c.fn.bind FnObj.fname).getD "") "")

/-- Arguments stored in a ToolResult record:
`call.arguments || call.arguments_json || "\x7b\x7d"`, parsed leniently. -/
def recCallArgs (env : Env) (c : ToolCall) : ArgsMap :=
  resolveArgs env (orRaw c.arguments (orRaw c.arguments_json (.str "\x7b\x7d")))

/-- The orchestrator tool loop (src/server.js lines 755-783): execute every
call in order, collecting records; a thrown error aborts the whole turn. -/
def runCalls (env : Env) : List ToolCall → Except String (List ToolResultRec) × List TurnEv
  | [] => (.ok [], [])
  | c :: rest =>
    let out := executeToolCall env c
    let ev := TurnEv.toolExec (resolveName c) :: out.calls.map TurnEv.adapterCall
    match out.res with
    | .error e => (.error e, ev)
    | .ok v =>
      match runCalls env rest with
      | (.error e, evs) => (.error e, ev ++ evs)
      | (.ok rs, evs) =>
        (.ok ({ name := recCallName c, args := recCallArgs env c, result := v } :: rs),
         ev ++ evs)

/-- Rendering of a possibly-null metric with its unit, "—" when null. -/
def tempStr (v : Option Int) (unitSuffix : String) : String :=
  match v with
  | some n => toString n ++ unitSuffix
  | none => "—"

/-- The deterministic weather-history reply line, produced when the result
has truthy city and date fields. -/
def weatherLine (r : ToolValue) : Option String :=
  match r with
  | .weatherRes city _country date tmax tmin prec wind =>
    if city ≠ "" ∧ date ≠ "" then
      some (city ++ " " ++ date ++ ": high " ++ tempStr tmax "°C" ++ ", low "
        ++ tempStr tmin "°C" ++ ", rain " ++ tempStr prec "mm" ++ ", wind "
        ++ tempStr wind " m/s" ++ ".")
    else none
  | _ => none

/-- Image count of a search/generate result (0 when the images field is not
an array). -/
def imagesCount (r : ToolValue) : Nat :=
  match r with
  | .searchRes images _ => images.length
  | .genRes images => images.length
  | _ => 0

/-- Deterministic fallback reply of the heuristic path
(src/server.js lines 721-743). -/
def fallbackReply1 (results : List ToolResultRec) : String :=
  match results with
  | [] => ""
  | firstTool :: _ =>
    match (if firstTool.name = "get_weather_history" then weatherLine firstTool.result else none) with
    | some s => s
    | none =>
      if firstTool.name = "search_library" then
        if imagesCount firstTool.result ≠ 0 then
          "Found " ++ toString (imagesCount firstTool.result) ++ " images."
        else "Search completed."
      else if firstTool.name = "generate_ai" then
        if imagesCount firstTool.result ≠ 0 then
          "Generated " ++ toString (imagesCount firstTool.result) ++ " images."
        else "Generation completed."
      else "Done."

/-- Deterministic fallback reply of the planner path
(src/server.js lines 803-834). -/
def fallbackReply2 (results : List ToolResultRec) : String :=
  match results with
  | [] => ""
  | firstTool :: _ =>
    match (if firstTool.name = "get_weather_history" then weatherLine firstTool.result else none) with
    | some s => s
    | none =>
      if firstTool.name = "refresh_weather" then
        "I have updated the weather data. Do you want today or the past 7 days?"
      else if firstTool.name = "set_view" then "View updated."
      else if firstTool.name = "search_library" then
        if imagesCount firstTool.result ≠ 0 then
          "Found " ++ toString (imagesCount firstTool.result) ++ " images."
        else "Search completed."
      else if firstTool.name = "generate_ai" then
        if imagesCount firstTool.result ≠ 0 then
          "Generated " ++ toString (imagesCount firstTool.result) ++ " images."
        else "Generation completed."
      else if firstTool.name = "refine_image" then "Refine completed."
      else "Done."

/-- Model of the /api/agent turn (src/server.js lines 585-844).  The message
is Option-valued because a missing body field is undefined; the heuristic
fallback executes its inferred calls with object arguments, standing for the
JSON stringify/parse round trip of the source. -/
def agentTurn (env : Env) (today : CalDate) (message : Option String)
    (state : StateObj) : AgentOut :=
  let msg := message.getD ""
  if msg = "" then ⟨400, [], "", some "Missing message", []⟩
  else
    match env.plannerFirst with
    | .error e => ⟨500, [], "", some (jsOrS e "Agent failed"), [.plannerCall]⟩
    | .ok first =>
      let toolCalls := extractToolCalls first
      let replyText := extractOutputText first
      if toolCalls.isEmpty then
        match inferToolFromText today msg state with
        | some (.replyMsg r) => ⟨200, [], r, none, [.plannerCall]⟩
        | some (.toolsList ts) =>
          match runCalls env (ts.map (fun t => mkCall t.1 t.2)) with
          | (.error e, evs) => ⟨500, [], "", some (jsOrS e "Agent failed"), .plannerCall :: evs⟩
          | (.ok rs, evs) =>
            ⟨200, rs, jsOrS (fallbackReply1 rs) "Done.", none, .plannerCall :: evs⟩
        | none =>
          ⟨200, [], jsOrS replyText "Got it. What would you like to do next?", none,
           [.plannerCall]⟩
      else
        match runCalls env toolCalls with
        | (.error e, evs) => ⟨500, [], "", some (jsOrS e "Agent failed"), .plannerCall :: evs⟩
        | (.ok rs, evs) =>
          match env.plannerSecond with
          | .error e =>
            ⟨500, [], "", some (jsOrS e "Agent failed"), .plannerCall :: evs ++ [.plannerCall]⟩
          | .ok second =>
            ⟨200, rs,
             jsOrS (extractOutputText second) (jsOrS replyText
               (jsOrS (fallbackReply2 rs) "Got it. What would you like to do next?")),
             none, .plannerCall :: evs ++ [.plannerCall]⟩

/-! ## The asynchronous Replicate job state machine (/api/replicate, /api/refine) -/

/-- Job status values of a Replicate prediction. -/
inductive JobStatus where
  | starting | processing | succeeded | failed | canceled
deriving DecidableEq

/-- The loop guard: the while loop runs while the status is none of
succeeded, failed, canceled. -/
def isTerminalStatus : JobStatus → Bool
  | .succeeded => true
  | .failed => true
  | .canceled => true
  | _ => false

/-- An element of a prediction output: an object with a url, or a string. -/
inductive RepItem where
  | urlObj (u : String)
  | plain (s : String)
deriving DecidableEq

/-- The output payload of a prediction. -/
inductive PredOut where
  | arr (items : List RepItem)
  | single (item : RepItem)
  | noOut
deriving DecidableEq

/-- A Replicate prediction as polled by the endpoints. -/
structure Prediction where
  status : JobStatus
  error : Option String := none
  output : PredOut := .noOut
deriving DecidableEq

/-- Poll loop outcome: a terminal prediction, or a timeout; either carries
the number of poll fetches performed. -/
inductive PollOut where
  | done (p : Prediction) (polls : Nat)
  | timedOut (polls : Nat)
deriving DecidableEq

/-- The polling while-loop shared by /api/replicate and /api/refine
(src/server.js lines 1140-1154 and 1213-1227): while the status is
non-terminal, abort once elapsed time exceeds the 120000 ms ceiling,
otherwise sleep 1200 ms and re-fetch.  Time is modelled as the accumulated
sleep time; `pollFn n` is the prediction returned by the (n+1)-th fetch. -/
def pollPrediction (pollFn : Nat → Prediction) (p : Prediction)
    (polls elapsed : Nat) : PollOut :=
  if isTerminalStatus p.status then .done p polls
  else if _h : 120000 < elapsed then .timedOut polls
  else pollPrediction pollFn (pollFn polls) (polls + 1) (elapsed + 1200)
termination_by 120001 - elapsed
decreasing_by simp_wf; omega

/-- The url-or-string coercion applied to each output element. -/
def repItemUrl : RepItem → String
  | .urlObj u => u
  | .plain s => s

/-- Image list extraction of /api/replicate: non-arrays count as empty. -/
def replicateImages : PredOut → List String
  | .arr items => items.map repItemUrl
  | _ => []

/-- JS truthiness of an output value. -/
def predOutTruthy : PredOut → Bool
  | .noOut => false
  | .arr _ => true
  | .single (.plain s) => s ≠ ""
  | .single (.urlObj _) => true

/-- The `output && output.url ? output.url : output` step of /api/refine. -/
def refineImageUrl (o : PredOut) : PredOut :=
  match o with
  | .single (.urlObj u) => if u ≠ "" then .single (.plain u) else o
  | _ => o

/-- The /api/replicate endpoint after a successful submission whose body was
`first`: poll to a terminal state, then report failure, timeout, or images.
The second component counts the poll fetches performed. -/
def apiReplicateRun (pollFn : Nat → Prediction) (first : Prediction) :
    Except String (List String) × Nat :=
  match pollPrediction pollFn first 0 0 with
  | .timedOut n => (.error "Replicate request timed out", n)
  | .done p n =>
    if p.status ≠ .succeeded then (.error (jsOrS (p.error.getD "") "Replicate failed"), n)
    else (.ok (replicateImages p.output), n)

/-- The /api/refine endpoint after a successful submission. -/
def apiRefineRun (pollFn : Nat → Prediction) (first : Prediction) :
    Except String PredOut × Nat :=
  match pollPrediction pollFn first 0 0 with
  | .timedOut n => (.error "Replicate request timed out", n)
  | .done p n =>
    if p.status ≠ .succeeded then (.error (jsOrS (p.error.getD "") "Replicate failed"), n)
    else if predOutTruthy (refineImageUrl p.output) then (.ok (refineImageUrl p.output), n)
    else (.error "No output image", n)

/-! ## The Tool Registry (the tools array of /api/agent, lines 591-667) -/

/-- One parameter of a tool schema: its name, JSON type, optional enum, and
optional integer bounds. -/
structure ParamSpec where
  pname : String
  ptype : String
  enumVals : List String := []
  minI : Option Int := none
  maxI : Option Int := none

/-- A registered tool: name, description, parameters and required list. -/
structure ToolSpec where
  tname : String
  description : String
  params : List ParamSpec
  required : List String

/-- The registry declared in /api/agent. -/
def toolRegistry : List ToolSpec :=
  [{ tname := "search_library",
     description := "Search images from the best library source.",
     params := [⟨"query", "string", [], none, none⟩,
                ⟨"source", "string", ["unsplash", "pexels"], none, none⟩,
                ⟨"ratio", "string", ["1:1", "4:3", "16:9", "3:4", "9:16"], none, none⟩],
     required := ["query"] },
   { tname := "set_view",
     description := "Switch the presenter view between weather and gallery.",
     params := [⟨"view", "string", ["weather", "gallery"], none, none⟩],
     required := ["view"] },
   { tname := "refresh_weather",
     description := "Refresh the weather data and wallpaper.",
     params := [], required := [] },
   { tname := "get_weather_history",
     description := "Get historical daily weather for a city and date.",
     params := [⟨"city", "string", [], none, none⟩,
                ⟨"date", "string", [], none, none⟩],
     required := ["city", "date"] },
   { tname := "generate_ai",
     description := "Generate images with Flux.",
     params := [⟨"prompt", "string", [], none, none⟩,
                ⟨"count", "integer", [], some 1, some 5⟩,
                ⟨"aspect_ratio", "string", ["1:1", "4:3", "16:9", "3:4", "9:16"], none, none⟩],
     required := ["prompt"] },
   { tname := "refine_image",
     description := "Refine a single image with Flux Kontext.",
     params := [⟨"prompt", "string", [], none, none⟩,
                ⟨"input_image", "string", [], none, none⟩],
     required := ["prompt", "input_image"] }]

/-- Registry lookup by tool name. -/
def findSpec (name : String) : Option ToolSpec :=
  toolRegistry.find? (fun t => t.tname == name)

/-- A value conforms to one parameter schema. -/
def argOkP (p : ParamSpec) (v : JVal) : Bool :=
  match p.ptype, v with
  | "string", .vstr s => p.enumVals.isEmpty || p.enumVals.contains s
  | "integer", .vnum n =>
    ((p.minI.map (fun m => decide (m ≤ n))).getD true)
      && ((p.maxI.map (fun m => decide (n ≤ m))).getD true)
  | _, _ => false

/-- Arguments satisfy a ToolSpec schema: every required key is present, and
every present key that is declared conforms to its parameter schema. -/
def schemaValid (t : ToolSpec) (args : ArgsMap) : Bool :=
  t.required.all (fun r => (getArg args r).isSome) &&
  args.all (fun kv =>
    match t.params.find? (fun p => p.pname == kv.1) with
    | some p => argOkP p kv.2
    | none => true)

/-- A successful executor value has the shape of its tool. -/
def wellFormedRes (name : String) (v : ToolValue) : Bool :=
  match name, v with
  | "search_library", .searchRes _ s => s == "unsplash" || s == "pexels"
  | "generate_ai", .genRes _ => true
  | "refine_image", .refineRes _ => true
  | "set_view", .viewRes w => jvalTruthy w
  | "refresh_weather", .okRes => true
  | "get_weather_history", .weatherRes .. => true
  | _, _ => false

/-- The two legal shapes of an executor outcome for a given tool. -/
def resultShape (name : String) (o : ExecOut) : Prop :=
  ((∃ v, o.res = .ok v ∧ wellFormedRes name v = true) ∧ ¬ ∃ e, o.res = .error e) ∨
  ((∃ e, o.res = .error e ∧ e ≠ "") ∧ ¬ ∃ v, o.res = .ok v)

/-! ## Helper lemmas -/

theorem jsOrS_ne_empty {a b : String} (hb : b ≠ "") : jsOrS a b ≠ "" := by
  unfold jsOrS
  split
  · exact hb
  · assumption

theorem resultShape_error {name e calls} (h : e ≠ "") :
    resultShape name ⟨.error e, calls⟩ := by
  right
  exact ⟨⟨e, rfl, h⟩, by rintro ⟨v, hv⟩; cases hv⟩

theorem resultShape_ok {name v calls} (h : wellFormedRes name v = true) :
    resultShape name ⟨.ok v, calls⟩ := by
  left
  exact ⟨⟨v, rfl, h⟩, by rintro ⟨e, he⟩; cases he⟩

theorem executeToolCall_mkCall (env : Env) (n : String) (m : ArgsMap) (hn : n ≠ "") :
    executeToolCall env (mkCall n m) = dispatchTool env n m := by
  unfold executeToolCall mkCall resolveName resolveRaw resolveArgs orRaw rawTruthy jsOrS
  simp [hn]

/-- A concrete environment used to instantiate theorems at specific inputs:
every adapter succeeds, the JSON parser only knows the empty object, and the
planner returns no tool call and no text. -/
def env0 : Env :=
  { parseJson := fun s => if s = "\x7b\x7d" then some [] else none
    unsplashApi := fun _ _ => { ok := true, images := some ["u1", "u2"] }
    pexelsApi := fun _ _ => { ok := true, images := some ["p1"] }
    replicateApi := fun _ _ _ => { ok := true, images := some ["g1"] }
    refineApi := fun _ _ => { ok := true, image := some "r1" }
    geocodeApi := fun _ => { ok := true, results := some [⟨10, 20, "Paris", some "France"⟩] }
    archiveApi := fun _ _ _ => { ok := true, daily := some { temperature_2m_max := some [some 15] } }
    plannerFirst := .ok { output := [] }
    plannerSecond := .ok { output_text := some "Summary." } }

/-- C7: a missing or empty message is rejected with the argument error
before any outbound call: the status is 400, the error payload is
"Missing message", and the trace of outbound interactions is empty. -/
theorem c7_empty_message_rejected (env : Env) (today : CalDate) (state : StateObj)
    (message : Option String) (h : message = none ∨ message = some "") :
    agentTurn env today message state = ⟨400, [], "", some "Missing message", []⟩ := by
  rcases h with h | h <;> subst h <;> rfl

theorem c7_empty_message_rejected_witness :
    ((some "" : Option String) = none ∨ (some "" : Option String) = some "") ∧
      agentTurn env0 ⟨2024, 3, 10⟩ (some "") {} = ⟨400, [], "", some "Missing message", []⟩ :=
  ⟨Or.inr rfl, c7_empty_message_rejected env0 ⟨2024, 3, 10⟩ {} (some "") (Or.inr rfl)⟩

/-- C9: executing set_view twice with the same truthy view argument yields
two identical ToolResults, each carrying exactly the requested view, and
neither execution performs any outbound adapter call (the executor is a pure
pass-through for set_view). -/
theorem c9_set_view_idempotent (env : Env) (args : ArgsMap) (v : JVal)
    (hview : getArg args "view" = some v) (hv : jvalTruthy v = true) :
    (executeToolCall env (mkCall "set_view" args),
        executeToolCall env (mkCall "set_view" args)) =
      (⟨.ok (.viewRes v), []⟩, ⟨.ok (.viewRes v), []⟩) := by
  have h1 : executeToolCall env (mkCall "set_view" args) = dispatchTool env "set_view" args :=
    executeToolCall_mkCall env "set_view" args (by decide)
  have h2 : dispatchTool env "set_view" args = ⟨.ok (.viewRes v), []⟩ := by
    simp [dispatchTool, hview, optTruthy, hv]
  rw [h1, h2]

theorem c9_set_view_idempotent_witness :
    getArg [("view", JVal.vstr "gallery")] "view" = some (.vstr "gallery") ∧
      jvalTruthy (.vstr "gallery") = true ∧
      (executeToolCall env0 (mkCall "set_view" [("view", JVal.vstr "gallery")]),
          executeToolCall env0 (mkCall "set_view" [("view", JVal.vstr "gallery")])) =
        (⟨.ok (.viewRes (.vstr "gallery")), []⟩, ⟨.ok (.viewRes (.vstr "gallery")), []⟩) :=
  ⟨by decide, by decide,
   c9_set_view_idempotent env0 [("view", JVal.vstr "gallery")] (.vstr "gallery") (by decide) (by decide)⟩

/-- C10: when the arguments field is a string the JSON parser rejects, the
executor does not fail with a parse error; it proceeds with the empty
mapping, so the named tool behaves exactly as if called with no arguments:
search_library fails with its missing-required-argument error, while
refresh_weather (no required arguments) succeeds.  The second hypothesis
records that the parser accepts the literal empty-object string used as the
default when the arguments field is falsy. -/
theorem c10_bad_json_args (env : Env) (name : String) (s : String)
    (hbad : env.parseJson s = none)
    (hbrace : env.parseJson "\x7b\x7d" = some []) :
    executeToolCall env { name := some name, arguments := some (.str s) } =
        executeToolCall env (mkCall name []) ∧
      (executeToolCall env { name := some "search_library", arguments := some (.str s) }).res =
        .error "Missing query" ∧
      (executeToolCall env { name := some "refresh_weather", arguments := some (.str s) }).res =
        .ok .okRes := by
  have key : ∀ n : String,
      executeToolCall env { name := some n, arguments := some (.str s) } =
        dispatchTool env (jsOrS n "") [] := by
    intro n
    unfold executeToolCall resolveName resolveRaw resolveArgs orRaw rawTruthy
    by_cases hs : s = ""
    · subst hs
      simp [hbrace, jsOrS]
    · simp [hs, hbad, jsOrS]
  have key2 : ∀ n : String,
      executeToolCall env (mkCall n []) = dispatchTool env (jsOrS n "") [] := by
    intro n
    unfold executeToolCall mkCall resolveName resolveRaw resolveArgs orRaw rawTruthy
    simp [jsOrS]
  refine ⟨(key name).trans (key2 name).symm, ?_, ?_⟩
  · rw [key "search_library"]
    rfl
  · rw [key "refresh_weather"]
    rfl

theorem c10_bad_json_args_witness :
    env0.parseJson "not json" = none ∧
      env0.parseJson "\x7b\x7d" = some [] ∧
      (executeToolCall env0 { name := some "search_library", arguments := some (.str "not json") } =
          executeToolCall env0 (mkCall "search_library" []) ∧
        (executeToolCall env0 { name := some "search_library", arguments := some (.str "not json") }).res =
          .error "Missing query" ∧
        (executeToolCall env0 { name := some "refresh_weather", arguments := some (.str "not json") }).res =
          .ok .okRes) :=
  ⟨by decide, by decide,
   c10_bad_json_args env0 "search_library" "not json" (by decide) (by decide)⟩

/-- The executor rejects any unregistered tool name with the hard
"Unknown tool" error and performs no adapter call. -/
theorem dispatchTool_unknown (env : Env) (name : String) (args : ArgsMap)
    (h : name ∉ ["search_library", "generate_ai", "refine_image", "set_view",
      "refresh_weather", "get_weather_history"]) :
    dispatchTool env name args = ⟨.error "Unknown tool", []⟩ := by
  simp only [List.mem_cons, List.not_mem_nil, or_false, not_or] at h
  obtain ⟨h1, h2, h3, h4, h5, h6⟩ := h
  unfold dispatchTool
  split
  · exact absurd rfl h1
  · exact absurd rfl h2
  · exact absurd rfl h3
  · exact absurd rfl h4
  · exact absurd rfl h5
  · exact absurd rfl h6
  · rfl

/-- C8: when the planner proposes a single call whose resolved name is not
one of the six registered tools, the executor throws the hard
"Unknown tool" error, the turn fails with status 500, and the trace shows
exactly one execution attempt and no retry. -/
theorem c8_unknown_tool (env : Env) (today : CalDate) (state : StateObj) (msg : String)
    (first : PlannerResp) (c : ToolCall)
    (hmsg : msg ≠ "") (hp : env.plannerFirst = .ok first)
    (hcalls : extractToolCalls first = [c])
    (hname : resolveName c ∉ ["search_library", "generate_ai", "refine_image", "set_view",
      "refresh_weather", "get_weather_history"]) :
    agentTurn env today (some msg) state =
      ⟨500, [], "", some "Unknown tool", [.plannerCall, .toolExec (resolveName c)]⟩ := by
  have hexec : executeToolCall env c = ⟨.error "Unknown tool", []⟩ := by
    unfold executeToolCall
    exact dispatchTool_unknown env _ _ hname
  have hrun : runCalls env [c] = (.error "Unknown tool", [.toolExec (resolveName c)]) := by
    simp only [runCalls, hexec, List.map_nil]
  simp [agentTurn, hmsg, hp, hcalls, hrun, jsOrS]

/-- A tool call with an unregistered name, used to instantiate C8. -/
def cBogus : ToolCall := mkCall "bogus_tool" []

/-- An environment whose planner proposes only the unregistered tool. -/
def envBogus : Env := { env0 with plannerFirst := .ok { output := [.toolCallItem cBogus] } }

theorem c8_unknown_tool_witness :
    "nonempty" ≠ "" ∧
      envBogus.plannerFirst = .ok { output := [.toolCallItem cBogus] } ∧
      extractToolCalls { output := [.toolCallItem cBogus] } = [cBogus] ∧
      resolveName cBogus ∉ (["search_library", "generate_ai", "refine_image", "set_view",
        "refresh_weather", "get_weather_history"] : List String) ∧
      agentTurn envBogus ⟨2024, 3, 10⟩ (some "nonempty") {} =
        ⟨500, [], "", some "Unknown tool", [.plannerCall, .toolExec (resolveName cBogus)]⟩ :=
  ⟨by decide, rfl, rfl, by decide,
   c8_unknown_tool envBogus ⟨2024, 3, 10⟩ {} "nonempty" { output := [.toolCallItem cBogus] }
     cBogus (by decide) rfl rfl (by decide)⟩

/-- C5: for a search_library call with a truthy query whose source argument
is absent or anything other than "unsplash"/"pexels", the executor resolves
the source to "unsplash" and dispatches the Unsplash adapter (never Pexels,
and never a question back to the user): the outcome is exactly the Unsplash
branch, whose success value carries source "unsplash" and whose only
outbound call is the Unsplash search. -/
theorem c5_source_defaults_unsplash (env : Env) (args : ArgsMap) (q : JVal)
    (hq : getArg args "query" = some q) (hqt : jvalTruthy q = true)
    (hs1 : getArg args "source" ≠ some (.vstr "pexels"))
    (hs2 : getArg args "source" ≠ some (.vstr "unsplash")) :
    executeToolCall env (mkCall "search_library" args) =
      (let ratioStr := if optTruthy (getArg args "ratio")
         then jvalStr ((getArg args "ratio").getD (.vstr "")) else "1:1"
       let resp := env.unsplashApi (jvalStr q) ratioStr
       if !resp.ok || errTruthy resp.error then
         ⟨.error (jsOrS (resp.error.getD "") "Unsplash failed"),
          [.unsplashSearch (jvalStr q) ratioStr]⟩
       else ⟨.ok (.searchRes (resp.images.getD []) "unsplash"),
             [.unsplashSearch (jvalStr q) ratioStr]⟩) := by
  rw [executeToolCall_mkCall env _ args (by decide)]
  unfold dispatchTool
  simp [hq, optTruthy, hqt, hs1, hs2]

theorem c5_source_defaults_unsplash_witness :
    getArg [("query", JVal.vstr "mountains"), ("source", JVal.vstr "flickr")] "query" =
        some (.vstr "mountains") ∧
      jvalTruthy (.vstr "mountains") = true ∧
      getArg [("query", JVal.vstr "mountains"), ("source", JVal.vstr "flickr")] "source" ≠
        some (.vstr "pexels") ∧
      getArg [("query", JVal.vstr "mountains"), ("source", JVal.vstr "flickr")] "source" ≠
        some (.vstr "unsplash") ∧
      executeToolCall env0
          (mkCall "search_library" [("query", JVal.vstr "mountains"), ("source", JVal.vstr "flickr")]) =
        ⟨.ok (.searchRes ["u1", "u2"] "unsplash"), [.unsplashSearch "mountains" "1:1"]⟩ := by
  refine ⟨by decide, by decide, by decide, by decide, ?_⟩
  rw [c5_source_defaults_unsplash env0 _ (.vstr "mountains") (by decide) (by decide)
    (by decide) (by decide)]
  decide

/-- Shape of the common adapter-wrap pattern: propagated error with a
nonempty default, or a well-formed success value. -/
theorem resultShape_branch (name : String) (b : Bool) (x : Option String) (msg : String)
    (v : ToolValue) (l : List AdapterEv) (hmsg : msg ≠ "") (hv : wellFormedRes name v = true) :
    resultShape name (if b = true then ⟨.error (jsOrS (x.getD "") msg), l⟩ else ⟨.ok v, l⟩) := by
  by_cases hb : b = true
  · rw [if_pos hb]
    exact resultShape_error (jsOrS_ne_empty hmsg)
  · rw [if_neg hb]
    exact resultShape_ok hv

theorem shape_search (env : Env) (args : ArgsMap) :
    resultShape "search_library" (dispatchTool env "search_library" args) := by
  unfold dispatchTool
  by_cases hq : optTruthy (getArg args "query") = true
  · simp only [hq, Bool.not_true, Bool.false_eq_true, if_false]
    by_cases hsrc : getArg args "source" = some (.vstr "pexels") ∨
        getArg args "source" = some (.vstr "unsplash")
    · rcases hsrc with h | h
      · have hsel : (if getArg args "source" = some (JVal.vstr "pexels") ∨
            getArg args "source" = some (JVal.vstr "unsplash")
            then jvalStr ((getArg args "source").getD (JVal.vstr "")) else "unsplash") = "pexels" := by
          rw [if_pos (Or.inl h), h]
          rfl
        rw [hsel, if_neg (by decide : ¬("pexels" : String) = "unsplash"),
          if_pos (rfl : ("pexels" : String) = "pexels")]
        exact resultShape_branch _ _ _ _ _ _ (by decide) rfl
      · have hsel : (if getArg args "source" = some (JVal.vstr "pexels") ∨
            getArg args "source" = some (JVal.vstr "unsplash")
            then jvalStr ((getArg args "source").getD (JVal.vstr "")) else "unsplash") = "unsplash" := by
          rw [if_pos (Or.inr h), h]
          rfl
        rw [hsel, if_pos (rfl : ("unsplash" : String) = "unsplash")]
        exact resultShape_branch _ _ _ _ _ _ (by decide) rfl
    · rw [if_neg hsrc, if_pos (rfl : ("unsplash" : String) = "unsplash")]
      exact resultShape_branch _ _ _ _ _ _ (by decide) rfl
  · simp only [Bool.not_eq_true] at hq
    simp only [hq, Bool.not_false, if_pos]
    apply resultShape_error
    decide

theorem shape_generate (env : Env) (args : ArgsMap) :
    resultShape "generate_ai" (dispatchTool env "generate_ai" args) := by
  unfold dispatchTool
  by_cases hp : optTruthy (getArg args "prompt") = true
  · simp only [hp, Bool.not_true, Bool.false_eq_true, if_false]
    exact resultShape_branch _ _ _ _ _ _ (by decide) rfl
  · simp only [Bool.not_eq_true] at hp
    simp only [hp, Bool.not_false, if_pos]
    apply resultShape_error
    decide

theorem shape_refine (env : Env) (args : ArgsMap) :
    resultShape "refine_image" (dispatchTool env "refine_image" args) := by
  unfold dispatchTool
  by_cases hc : (!optTruthy (getArg args "prompt") || !optTruthy (getArg args "input_image")) = true
  · simp only [hc, if_true]
    apply resultShape_error
    decide
  · simp only [Bool.not_eq_true] at hc
    simp only [hc, Bool.false_eq_true, if_false]
    exact resultShape_branch _ _ _ _ _ _ (by decide) rfl

theorem shape_setview (env : Env) (args : ArgsMap) :
    resultShape "set_view" (dispatchTool env "set_view" args) := by
  unfold dispatchTool
  by_cases hv : optTruthy (getArg args "view") = true
  · simp only [hv, Bool.not_true, Bool.false_eq_true, if_false]
    apply resultShape_ok
    have hjv : jvalTruthy ((getArg args "view").getD (.vstr "")) = true := by
      rcases h : getArg args "view" with _ | v
      · rw [h] at hv
        exact absurd hv (by decide)
      · rw [h] at hv
        simpa [optTruthy] using hv
    exact hjv
  · simp only [Bool.not_eq_true] at hv
    simp only [hv, Bool.not_false, if_pos]
    apply resultShape_error
    decide

theorem shape_refresh (env : Env) (args : ArgsMap) :
    resultShape "refresh_weather" (dispatchTool env "refresh_weather" args) := by
  unfold dispatchTool
  exact resultShape_ok rfl

theorem shape_weather (env : Env) (args : ArgsMap) :
    resultShape "get_weather_history" (dispatchTool env "get_weather_history" args) := by
  unfold dispatchTool
  by_cases hc : (!optTruthy (getArg args "city") || !optTruthy (getArg args "date")) = true
  · simp only [hc, if_true]
    apply resultShape_error
    decide
  · simp only [Bool.not_eq_true] at hc
    simp only [hc, Bool.false_eq_true, if_false]
    by_cases hgeo : (!(env.geocodeApi (jvalStr ((getArg args "city").getD (.vstr "")))).ok) = true
    · simp only [hgeo, if_true]
      apply resultShape_error
      decide
    · simp only [Bool.not_eq_true] at hgeo
      simp only [hgeo, Bool.false_eq_true, if_false]
      rcases hres : (env.geocodeApi (jvalStr ((getArg args "city").getD (.vstr "")))).results with
        _ | ⟨_ | ⟨place, rest⟩⟩
      · simp only [hres]
        apply resultShape_error
        decide
      · simp only [hres]
        apply resultShape_error
        decide
      · simp only [hres]
        by_cases harch : (!(env.archiveApi place.latitude place.longitude
            ((jvalStr ((getArg args "date").getD (.vstr ""))).take 10)).ok) = true
        · simp only [harch, if_true]
          apply resultShape_error
          decide
        · simp only [Bool.not_eq_true] at harch
          simp only [harch, Bool.false_eq_true, if_false]
          rcases hd : (env.archiveApi place.latitude place.longitude
              ((jvalStr ((getArg args "date").getD (.vstr ""))).take 10)).daily with _ | d
          · simp only [hd]
            apply resultShape_error
            decide
          · simp only [hd]
            apply resultShape_ok
            rfl

/-- C2: for every tool call whose name is registered and whose arguments
satisfy the matching ToolSpec schema, the executor outcome takes exactly one
of the two legal shapes of resultShape: a well-formed success value with no
error, or a nonempty error with no value — never both, never neither. -/
theorem c2_executor_result_shape (env : Env) (name : String) (args : ArgsMap) (t : ToolSpec)
    (hspec : findSpec name = some t) (hvalid : schemaValid t args = true) :
    resultShape name (executeToolCall env (mkCall name args)) := by
  have hname : t.tname = name := by
    have := List.find?_some hspec
    simpa using this
  have hmem : t ∈ toolRegistry := List.mem_of_find?_eq_some hspec
  subst hname
  simp only [toolRegistry, List.mem_cons, List.not_mem_nil, or_false] at hmem
  rcases hmem with rfl | rfl | rfl | rfl | rfl | rfl
  · rw [executeToolCall_mkCall env _ args (by decide)]
    exact shape_search env args
  · rw [executeToolCall_mkCall env _ args (by decide)]
    exact shape_setview env args
  · rw [executeToolCall_mkCall env _ args (by decide)]
    exact shape_refresh env args
  · rw [executeToolCall_mkCall env _ args (by decide)]
    exact shape_weather env args
  · rw [executeToolCall_mkCall env _ args (by decide)]
    exact shape_generate env args
  · rw [executeToolCall_mkCall env _ args (by decide)]
    exact shape_refine env args

/-- The registered set_view ToolSpec, named for witness instantiation. -/
def setViewSpec : ToolSpec :=
  { tname := "set_view",
    description := "Switch the presenter view between weather and gallery.",
    params := [⟨"view", "string", ["weather", "gallery"], none, none⟩],
    required := ["view"] }

theorem c2_executor_result_shape_witness :
    findSpec "set_view" = some setViewSpec ∧
      schemaValid setViewSpec [("view", JVal.vstr "weather")] = true ∧
      resultShape "set_view" (executeToolCall env0 (mkCall "set_view" [("view", JVal.vstr "weather")])) :=
  ⟨rfl, by decide,
   c2_executor_result_shape env0 "set_view" [("view", JVal.vstr "weather")] setViewSpec rfl (by decide)⟩

/-- Filter predicate selecting tool-execution events of a turn trace. -/
def isToolExecEv : TurnEv → Bool
  | .toolExec _ => true
  | _ => false

theorem filter_adapter_nil (l : List AdapterEv) :
    (l.map TurnEv.adapterCall).filter isToolExecEv = [] := by
  induction l with
  | nil => rfl
  | cons a rest ih => simp [isToolExecEv, ih]

/-- A successful orchestrator tool loop executes every call: it produces one
ToolResult per input call, and its trace carries one execution event per
call, in order. -/
theorem runCalls_ok_spec (env : Env) :
    ∀ (cs : List ToolCall) (results : List ToolResultRec) (evs : List TurnEv),
      runCalls env cs = (.ok results, evs) →
      results.length = cs.length ∧
      evs.filter isToolExecEv = cs.map (fun c => TurnEv.toolExec (resolveName c)) := by
  intro cs
  induction cs with
  | nil =>
    intro results evs h
    simp [runCalls] at h
    obtain ⟨h1, h2⟩ := h
    subst h1
    subst h2
    simp
  | cons c rest ih =>
    intro results evs h
    cases hres : (executeToolCall env c).res with
    | error e =>
      simp [runCalls, hres] at h
    | ok v =>
      cases hrec : runCalls env rest with
      | mk r2 e2 =>
        cases r2 with
        | error e =>
          simp [runCalls, hres, hrec] at h
        | ok rs =>
          simp [runCalls, hres, hrec] at h
          obtain ⟨h1, h2⟩ := h
          subst h1
          subst h2
          obtain ⟨ih1, ih2⟩ := ih rs e2 hrec
          constructor
          · simp [ih1]
          · simp [List.filter_append, List.filter_cons, isToolExecEv,
              filter_adapter_nil, ih2]

/-- A planner tool call proposing set_view. -/
def cSetView : ToolCall := mkCall "set_view" [("view", .vstr "gallery")]

/-- A planner tool call proposing refresh_weather. -/
def cRefresh : ToolCall := mkCall "refresh_weather" []

/-- A planner response proposing two tool invocations in one turn. -/
def plannerTwo : PlannerResp :=
  { output := [.toolCallItem cSetView, .toolCallItem cRefresh] }

/-- An environment whose planner proposes the two invocations. -/
def env1 : Env := { env0 with plannerFirst := .ok plannerTwo }

/-- C1 counterexample: with a planner returning two tool invocations, the
orchestrator executes BOTH (two execution events in the trace) and both
contribute a ToolResult to the response — refuting the single-tool-per-turn
claim at this concrete input. -/
theorem c1_counterexample :
    agentTurn env1 ⟨2024, 3, 10⟩ (some "switch view and refresh") {} =
      ⟨200,
       [⟨"set_view", [("view", .vstr "gallery")], .viewRes (.vstr "gallery")⟩,
        ⟨"refresh_weather", [], .okRes⟩],
       "Summary.", none,
       [.plannerCall, .toolExec "set_view", .toolExec "refresh_weather", .plannerCall]⟩ ∧
    ¬ ((agentTurn env1 ⟨2024, 3, 10⟩ (some "switch view and refresh") {}).tools.length ≤ 1) := by
  constructor
  · decide
  · decide

/-- C1 amended: the orchestrator executes EVERY planner-returned invocation
in order; when all executions succeed, each invocation contributes exactly
one ToolResult to the response, and the trace carries one execution event
per invocation. -/
theorem c1_all_calls_executed (env : Env) (today : CalDate) (state : StateObj)
    (msg : String) (first : PlannerResp) (results : List ToolResultRec)
    (evs : List TurnEv) (second : PlannerResp)
    (hmsg : msg ≠ "") (hp : env.plannerFirst = .ok first)
    (hne : extractToolCalls first ≠ [])
    (hrun : runCalls env (extractToolCalls first) = (.ok results, evs))
    (hp2 : env.plannerSecond = .ok second) :
    (agentTurn env today (some msg) state).tools = results ∧
    results.length = (extractToolCalls first).length ∧
    evs.filter isToolExecEv =
      (extractToolCalls first).map (fun c => TurnEv.toolExec (resolveName c)) := by
  obtain ⟨h1, h2⟩ := runCalls_ok_spec env _ _ _ hrun
  refine ⟨?_, h1, h2⟩
  have hemp : (extractToolCalls first).isEmpty = false := by
    cases hcs : extractToolCalls first with
    | nil => exact absurd hcs hne
    | cons a l => rfl
  simp [agentTurn, hmsg, hp, hemp, hrun, hp2]

theorem c1_all_calls_executed_witness :
    ("go" : String) ≠ "" ∧
      env1.plannerFirst = .ok plannerTwo ∧
      extractToolCalls plannerTwo ≠ [] ∧
      runCalls env1 (extractToolCalls plannerTwo) =
        (.ok [⟨"set_view", [("view", .vstr "gallery")], .viewRes (.vstr "gallery")⟩,
              ⟨"refresh_weather", [], .okRes⟩],
         [.toolExec "set_view", .toolExec "refresh_weather"]) ∧
      env1.plannerSecond = .ok { output_text := some "Summary." } ∧
      ((agentTurn env1 ⟨2024, 3, 10⟩ (some "go") {}).tools =
          [⟨"set_view", [("view", .vstr "gallery")], .viewRes (.vstr "gallery")⟩,
           ⟨"refresh_weather", [], .okRes⟩] ∧
        ([⟨"set_view", [("view", JVal.vstr "gallery")], ToolValue.viewRes (.vstr "gallery")⟩,
          (⟨"refresh_weather", [], .okRes⟩ : ToolResultRec)] : List ToolResultRec).length =
          (extractToolCalls plannerTwo).length ∧
        ([.toolExec "set_view", .toolExec "refresh_weather"] : List TurnEv).filter isToolExecEv =
          (extractToolCalls plannerTwo).map (fun c => TurnEv.toolExec (resolveName c))) :=
  ⟨by decide, rfl, by decide, by decide, rfl,
   c1_all_calls_executed env1 ⟨2024, 3, 10⟩ {} "go" plannerTwo _ _
     { output_text := some "Summary." } (by decide) rfl (by decide) (by decide) rfl⟩

/-- One unfolding of the poll loop at a terminal status: the loop body never
runs and no poll fetch is performed. -/
theorem pollPrediction_terminal (pollFn : Nat → Prediction) (p : Prediction)
    (polls elapsed : Nat) (h : isTerminalStatus p.status = true) :
    pollPrediction pollFn p polls elapsed = .done p polls := by
  unfold pollPrediction
  simp [h]

/-- Downward induction for the timeout case: from any non-terminal state at
poll count k (with elapsed time 1200k), an always-non-terminal poll stream
reaches the timeout after exactly 101 poll fetches. -/
theorem pollPrediction_timeout_aux (pollFn : Nat → Prediction)
    (hf : ∀ n, isTerminalStatus (pollFn n).status = false) :
    ∀ j k (p : Prediction), 101 - k ≤ j → k ≤ 101 →
      isTerminalStatus p.status = false →
      pollPrediction pollFn p k (1200 * k) = .timedOut 101 := by
  intro j
  induction j with
  | zero =>
    intro k p h1 h2 hp
    have hk : k = 101 := by omega
    subst hk
    unfold pollPrediction
    simp [hp]
  | succ j ih =>
    intro k p h1 h2 hp
    by_cases hk : k = 101
    · subst hk
      unfold pollPrediction
      simp [hp]
    · have hk' : k < 101 := by omega
      unfold pollPrediction
      simp only [hp, Bool.false_eq_true, if_false]
      rw [dif_neg (by omega : ¬ 120000 < 1200 * k)]
      have := ih (k + 1) (pollFn k) (by omega) (by omega) (hf k)
      rw [show 1200 * k + 1200 = 1200 * (k + 1) by ring]
      exact this

/-- C3: in the asynchronous job state machine shared by /api/replicate and
/api/refine, a submission whose first reported status is failed yields the
provider-error terminal failure with zero poll fetches (the loop body never
runs); a job that stays in a non-terminal status (starting/processing) on
every poll yields the distinct timeout error once the 120000 ms ceiling is
exceeded, after which polling ceases (exactly 101 fetches at the 1200 ms
interval). -/
theorem c3_async_job_machine (pollFn : Nat → Prediction) (first : Prediction) :
    (first.status = .failed →
      apiReplicateRun pollFn first =
        (.error (jsOrS (first.error.getD "") "Replicate failed"), 0) ∧
      apiRefineRun pollFn first =
        (.error (jsOrS (first.error.getD "") "Replicate failed"), 0)) ∧
    (((first.status = .starting ∨ first.status = .processing) ∧
        ∀ n, (pollFn n).status = .starting ∨ (pollFn n).status = .processing) →
      apiReplicateRun pollFn first = (.error "Replicate request timed out", 101) ∧
      apiRefineRun pollFn first = (.error "Replicate request timed out", 101)) := by
  constructor
  · intro hfail
    have hterm : isTerminalStatus first.status = true := by rw [hfail]; rfl
    have hpoll := pollPrediction_terminal pollFn first 0 0 hterm
    constructor
    · unfold apiReplicateRun
      rw [hpoll]
      simp [hfail]
    · unfold apiRefineRun
      rw [hpoll]
      simp [hfail]
  · rintro ⟨hfirst, hall⟩
    have hnt : isTerminalStatus first.status = false := by
      rcases hfirst with h | h <;> rw [h] <;> rfl
    have hfa : ∀ n, isTerminalStatus (pollFn n).status = false := by
      intro n
      rcases hall n with h | h <;> rw [h] <;> rfl
    have hpoll := pollPrediction_timeout_aux pollFn hfa 101 0 first (by omega) (by omega) hnt
    rw [Nat.mul_zero] at hpoll
    constructor
    · unfold apiReplicateRun
      rw [hpoll]
    · unfold apiRefineRun
      rw [hpoll]

/-- A prediction that reports processing forever. -/
def procPred : Prediction := ⟨.processing, none, .noOut⟩

/-- A submission whose first reported status is failed. -/
def failedPred : Prediction := ⟨.failed, some "boom", .noOut⟩

theorem c3_async_job_machine_witness :
    (failedPred.status = .failed ∧
      apiReplicateRun (fun _ => procPred) failedPred =
        (.error (jsOrS (failedPred.error.getD "") "Replicate failed"), 0)) ∧
    (((procPred.status = .starting ∨ procPred.status = .processing) ∧
        ∀ n : Nat, procPred.status = .starting ∨ procPred.status = .processing) ∧
      apiReplicateRun (fun _ => procPred) procPred =
        (.error "Replicate request timed out", 101)) :=
  ⟨⟨rfl, ((c3_async_job_machine (fun _ => procPred) failedPred).1 rfl).1⟩,
   ⟨⟨Or.inr rfl, fun _ => Or.inr rfl⟩,
    ((c3_async_job_machine (fun _ => procPred) procPred).2
      ⟨Or.inr rfl, fun _ => Or.inr rfl⟩).1⟩⟩

/-! ## Character-preservation lemmas for the strip pipeline -/

theorem mem_of_containsSub {pat l : List Char} (h : containsSub pat l = true)
    {c : Char} (hc : c ∈ pat) : c ∈ l := by
  induction l with
  | nil =>
    simp [containsSub, List.isEmpty_iff] at h
    subst h
    exact absurd hc (List.not_mem_nil c)
  | cons d rest ih =>
    rw [containsSub, Bool.or_eq_true] at h
    rcases h with h | h
    · exact (List.isPrefixOf_iff_prefix.mp h).subset hc
    · exact List.mem_cons_of_mem _ (ih h)

theorem containsSub_ne_nil {pat l : List Char} (h : containsSub pat l = true)
    (hp : pat ≠ []) : l ≠ [] := by
  intro hl
  subst hl
  simp [containsSub, List.isEmpty_iff] at h
  exact hp h

theorem dropMatch_split {pats : List (List Char)} {l rest2 : List Char}
    (h : dropMatch pats l = some rest2) : ∃ p ∈ pats, l = p ++ rest2 := by
  induction pats with
  | nil => simp [dropMatch] at h
  | cons p ps ih =>
    rw [dropMatch] at h
    by_cases hp : p.isPrefixOf l
    · rw [if_pos hp] at h
      injection h with h
      refine ⟨p, List.mem_cons_self p ps, ?_⟩
      subst h
      exact (List.prefix_iff_eq_append.mp (List.isPrefixOf_iff_prefix.mp hp)).symm
    · rw [if_neg hp] at h
      obtain ⟨q, hq, hl⟩ := ih h
      exact ⟨q, List.mem_cons_of_mem _ hq, hl⟩

theorem stripGo_mem {pats : List (List Char)} {c : Char}
    (hc : ∀ p ∈ pats, c ∉ p) :
    ∀ (fuel : Nat) (l : List Char), c ∈ l → c ∈ stripGo pats fuel l := by
  intro fuel
  induction fuel with
  | zero =>
    intro l h
    simpa [stripGo] using h
  | succ fuel ih =>
    intro l h
    cases l with
    | nil => exact absurd h (List.not_mem_nil c)
    | cons d rest =>
      rw [stripGo]
      cases hdm : dropMatch pats (d :: rest) with
      | some rest2 =>
        obtain ⟨p, hp, hsplit⟩ := dropMatch_split hdm
        have hcr : c ∈ rest2 := by
          rw [hsplit] at h
          rcases List.mem_append.mp h with h2 | h2
          · exact absurd h2 (hc p hp)
          · exact h2
        exact ih rest2 hcr
      | none =>
        rcases List.mem_cons.mp h with rfl | h2
        · exact List.mem_cons_self c _
        · exact List.mem_cons_of_mem _ (ih rest h2)

theorem dropWhile_mem_of {c : Char} {l : List Char} (h : c ∈ l)
    (hc : isWsChar c = false) : c ∈ l.dropWhile isWsChar := by
  induction l with
  | nil => exact absurd h (List.not_mem_nil c)
  | cons d rest ih =>
    rw [List.dropWhile_cons]
    by_cases hd : isWsChar d = true
    · rw [if_pos hd]
      rcases List.mem_cons.mp h with rfl | h2
      · rw [hd] at hc
        cases hc
      · exact ih h2
    · rw [if_neg hd]
      exact h

theorem trimL_mem {c : Char} {l : List Char} (h : c ∈ l)
    (hc : isWsChar c = false) : c ∈ trimL l := by
  unfold trimL
  have h1 := dropWhile_mem_of h hc
  have h2 : c ∈ (l.dropWhile isWsChar).reverse := List.mem_reverse.mpr h1
  have h3 := dropWhile_mem_of h2 hc
  exact List.mem_reverse.mpr h3

/-- A historical keyword surviving both strip phases and the trim: if the
text contains a keyword owning a character that no strip alternative (and no
whitespace) can delete, the stripped query is nonempty. -/
theorem keyword_survives (t kw : List Char) (c : Char)
    (hck : c ∈ kw)
    (h1 : ∀ p ∈ searchStripPats, c ∉ p) (h2 : ∀ p ∈ zhStripPats, c ∉ p)
    (hcw : isWsChar c = false)
    (hsub : containsSub kw t = true) :
    trimL (stripAll zhStripPats (stripAll searchStripPats t)) ≠ [] := by
  intro hnil
  have hct : c ∈ t := mem_of_containsSub hsub hck
  have hs1 : c ∈ stripAll searchStripPats t := stripGo_mem h1 _ _ hct
  have hs2 : c ∈ stripAll zhStripPats (stripAll searchStripPats t) := stripGo_mem h2 _ _ hs1
  have hs3 := trimL_mem hs2 hcw
  rw [hnil] at hs3
  exact absurd hs3 (List.not_mem_nil c)

/-- C6: for a message matching a search-verb pattern, without weather
keywords, whose text is empty after stripping the search-verb phrases (both
strip regexes and the trim), the fallback resolver returns the clarifying
reply and produces no ToolCall.  No extra hypothesis excludes the
historical-weather branch: a fully-strippable text cannot contain any
history keyword, because each such keyword owns a character that no strip
alternative deletes. -/
theorem c6_empty_query_clarify (today : CalDate) (message : String) (state : StateObj)
    (hs : wantsSearchL (trimL (lowerL message.toList)) = true)
    (hw : containsAnyL weatherKws (trimL (lowerL message.toList)) = false)
    (hq : trimL (stripAll zhStripPats (stripAll searchStripPats
      (trimL (lowerL message.toList)))) = []) :
    inferToolFromText today message state = some (.replyMsg "What should I search for?") := by
  set t := trimL (lowerL message.toList) with ht
  have hs' := hs
  rw [wantsSearchL, containsAnyL, List.any_eq_true] at hs'
  obtain ⟨kw, hkwmem, hkw⟩ := hs'
  have hkne : kw ≠ [] := by
    simp only [searchKws, List.mem_cons, List.not_mem_nil, or_false] at hkwmem
    rcases hkwmem with rfl|rfl|rfl|rfl|rfl|rfl|rfl|rfl|rfl|rfl|rfl|rfl <;> decide
  have htne : t ≠ [] := containsSub_ne_nil hkw hkne
  have hhist : wantsHistoryL t = false := by
    rw [wantsHistoryL, containsAnyL, List.any_eq_false]
    intro p hp
    simp only [histKws, List.mem_cons, List.not_mem_nil, or_false] at hp
    rcases hp with rfl|rfl|rfl|rfl|rfl|rfl|rfl
    · intro hcs
      exact keyword_survives t _ 'y' (by decide) (by decide) (by decide) (by decide) hcs hq
    · intro hcs
      exact keyword_survives t _ 'k' (by decide) (by decide) (by decide) (by decide) hcs hq
    · intro hcs
      exact keyword_survives t _ '7' (by decide) (by decide) (by decide) (by decide) hcs hq
    · intro hcs
      exact keyword_survives t _ '过' (by decide) (by decide) (by decide) (by decide) hcs hq
    · intro hcs
      exact keyword_survives t _ '昨' (by decide) (by decide) (by decide) (by decide) hcs hq
    · intro hcs
      exact keyword_survives t _ '前' (by decide) (by decide) (by decide) (by decide) hcs hq
    · intro hcs
      exact keyword_survives t _ '周' (by decide) (by decide) (by decide) (by decide) hcs hq
  simp only [inferToolFromText]
  rw [← ht]
  simp [htne, hhist, hs, hw, hq, List.isEmpty_iff]

theorem c6_empty_query_clarify_witness :
    wantsSearchL (trimL (lowerL "search".toList)) = true ∧
      containsAnyL weatherKws (trimL (lowerL "search".toList)) = false ∧
      trimL (stripAll zhStripPats (stripAll searchStripPats
        (trimL (lowerL "search".toList)))) = [] ∧
      inferToolFromText ⟨2024, 3, 10⟩ "search" {} = some (.replyMsg "What should I search for?") :=
  ⟨by decide, by decide, by decide,
   c6_empty_query_clarify ⟨2024, 3, 10⟩ "search" {} (by decide) (by decide) (by decide)⟩

/-- C4: for a message containing "yesterday" with an extractable city and no
explicit ISO date, the fallback resolver produces a get_weather_history
ToolCall whose date argument is exactly (today minus one day) rendered as
YYYY-MM-DD by formatDateOffset. -/
theorem c4_yesterday_weather_history (today : CalDate) (message : String) (state : StateObj)
    (hy : containsSub ("yesterday".toList) (trimL (lowerL message.toList)) = true)
    (hcity : extractCity (trimL (lowerL message.toList)) ≠ [])
    (hiso : parseISOGo false (trimL (lowerL message.toList)) = none) :
    inferToolFromText today message state =
      some (.toolsList [("get_weather_history",
        [("city", .vstr (String.mk (extractCity (trimL (lowerL message.toList))))),
         ("date", .vstr (formatDateOffset today (-1)))])]) := by
  set t := trimL (lowerL message.toList) with ht
  have htne : t ≠ [] := containsSub_ne_nil hy (by decide)
  have hhist : wantsHistoryL t = true := by
    rw [wantsHistoryL, containsAnyL, List.any_eq_true]
    exact ⟨"yesterday".toList, by simp [histKws], hy⟩
  have hdate : parseISODate t = "" := by rw [parseISODate, hiso]
  have hfmtne : formatDateOffset today (-1) ≠ "" := by
    unfold formatDateOffset fmtDate
    intro h
    have hlen := congrArg String.length h
    simp only [String.length_append] at hlen
    have hone : ("-" : String).length = 1 := rfl
    rw [hone] at hlen
    simp at hlen
  have hy2 : containsSub ['y', 'e', 's', 't', 'e', 'r', 'd', 'a', 'y'] t = true := hy
  simp only [inferToolFromText]
  rw [← ht]
  simp [htne, hhist, hdate, hy2, hfmtne, hcity, jsOrS, List.isEmpty_iff]

theorem c4_yesterday_weather_history_witness :
    containsSub ("yesterday".toList) (trimL (lowerL "yesterday weather in tokyo".toList)) = true ∧
      extractCity (trimL (lowerL "yesterday weather in tokyo".toList)) ≠ [] ∧
      parseISOGo false (trimL (lowerL "yesterday weather in tokyo".toList)) = none ∧
      inferToolFromText ⟨2024, 3, 10⟩ "yesterday weather in tokyo" {} =
        some (.toolsList [("get_weather_history",
          [("city", .vstr (String.mk (extractCity (trimL (lowerL "yesterday weather in tokyo".toList))))),
           ("date", .vstr (formatDateOffset ⟨2024, 3, 10⟩ (-1)))])]) :=
  ⟨by decide, by decide, by decide,
   c4_yesterday_weather_history ⟨2024, 3, 10⟩ "yesterday weather in tokyo" {}
     (by decide) (by decide) (by decide)⟩
